import Mathlib

/-!
Verification of the tueroeffner sensor-fusion decision engine.

Shallow embedding of the radar frame decoders (`rd03d_async.py`,
`ld2450_async.py`), the trajectory analyzer and the decision state machine
(`radar_logic.py`).  Bytes are modelled as `Nat` (Python ints), machine
timestamps and regression arithmetic as `ℚ` (Python floats carry exact
small decimal values in all relevant comparisons), coordinates as `Int`.
The asynchronous structure is modelled by an explicit event stream feeding
the logic task: radar observations from the reader queue, and the
terminating paths of the BLE scan wrapper.
-/

namespace Tueroeffner

/-! ## Sign-magnitude decoding (ld2450_async._parse_sign_magnitude,
    rd03d_async.parse_signed16)

Both decoders read a 16-bit raw value; bit 15 set means positive, the low
15 bits are the magnitude. -/

/-- Source `LD2450_Async._parse_sign_magnitude`: the two little-endian bytes form
`raw`; bit 15 set -> positive magnitude `raw &&& 0x7FFF`, else negative. -/
def ld_parse_sign_magnitude (lo hi : Nat) : Int :=
  let raw := lo + 256 * hi
  if raw &&& 0x8000 ≠ 0 then ((raw &&& 0x7FFF : Nat) : Int)
  else -((raw &&& 0x7FFF : Nat) : Int)

/-- Source `RD03D_Async.parse_signed16`: `raw = (high << 8) + low`,
`sign = 1 if raw & 0x8000 else -1`, `value = raw & 0x7FFF`. -/
def parse_signed16 (high low : Nat) : Int :=
  let raw := (high <<< 8) + low
  (if raw &&& 0x8000 ≠ 0 then (1 : Int) else -1) * ((raw &&& 0x7FFF : Nat) : Int)

/-- Natural re-encoder inverting the sign-magnitude decoding: a positive
value gets bit 15 set, a non-positive value is stored as its magnitude
with bit 15 clear.  (The source has no encoder; this is the reference
inverse used by the round-trip property.) -/
def signMagEncode (v : Int) : Nat :=
  if 0 < v then 0x8000 + v.toNat else (-v).toNat

/-! ## RD03D frame scanning (rd03d_async._find_complete_frame) -/

/-- Header scan of `RD03D_Async._find_complete_frame`:
first `i` (< len-1) with `data[i] = 0xAA` and `data[i+1] = 0xFF`. -/
def rdFindStartAux : Nat → List Nat → Option Nat
  | i, a :: b :: rest =>
    if a = 0xAA ∧ b = 0xFF then some i else rdFindStartAux (i + 1) (b :: rest)
  | _, _ => none

def rdFindStart (data : List Nat) : Option Nat := rdFindStartAux 0 data

/-- Source `RD03D_Async._find_complete_frame`: on a found header, if the 30-byte
span is present and ends in `55 CC`, return the frame and the remainder;
otherwise return no frame and `data[start_idx:]` (the buffer **from** the
bad header — nothing is discarded past it). -/
def rdFindCompleteFrame (data : List Nat) : Option (List Nat) × List Nat :=
  match rdFindStart data with
  | none => (none, data)
  | some s =>
    if s + 30 ≤ data.length ∧ data.getD (s + 28) 0 = 0x55 ∧ data.getD (s + 29) 0 = 0xCC then
      (some ((data.drop s).take 30), data.drop (s + 30))
    else (none, data.drop s)

/-! ## LD2450 frame scanning (ld2450_async._find_complete_frame) -/

/-- Header scan of `LD2450_Async._find_complete_frame`: Python iterates
`i in range(len(data) - 29)` testing `data[i:i+4] == AA FF 03 00`; a
header is only reported where a full 30-byte frame could start. -/
def ldFindHeaderAux : Nat → List Nat → Option Nat
  | i, a :: b :: c :: d :: rest =>
    if (a :: b :: c :: d :: rest).length < 30 then none
    else if a = 0xAA ∧ b = 0xFF ∧ c = 0x03 ∧ d = 0x00 then some i
    else ldFindHeaderAux (i + 1) (b :: c :: d :: rest)
  | _, _ => none

def ldFindHeader (data : List Nat) : Option Nat := ldFindHeaderAux 0 data

/-- Source `LD2450_Async._find_complete_frame`: on a found header with a full
30-byte span whose tail is not `55 CC`, the corrupt data is discarded
**through** the header (`data[start_idx + 4:]`) and scanning resumes. -/
def ldFindCompleteFrame (data : List Nat) : Option (List Nat) × List Nat :=
  match ldFindHeader data with
  | none => (none, data)
  | some s =>
    if s + 30 ≤ data.length then
      if data.getD (s + 28) 0 = 0x55 ∧ data.getD (s + 29) 0 = 0xCC then
        (some ((data.drop s).take 30), data.drop (s + 30))
      else (none, data.drop (s + 4))
    else (none, data.drop s)

/-! ## RD03D frame decoding and target update (rd03d_async.py) -/

/-- One decoded RD03D target record (class `Target`; `distance` and
`angle` are derived floats, not stored here: `distance > 0` is equivalent
to `x ≠ 0 ∨ y ≠ 0` since `distance = sqrt(x² + y²)`). -/
structure RDTarget where
  x : Int
  y : Int
  speed : Int
  pixel_distance : Nat
  deriving DecidableEq, Repr

/-- The `distance > 0` test of a decoded target, expressed without floats:
`sqrt(x² + y²) > 0 ↔ x ≠ 0 ∨ y ≠ 0`. -/
def hasPositiveDistance (t : RDTarget) : Bool :=
  !(t.x = 0 ∧ t.y = 0)

/-- Source `RD03D_Async._decode_frame`: re-validates length 30, header `AA FF`
and tail `55 CC`, then decodes three 8-byte target records starting at
offset 4.  Coordinates use sign-magnitude, `pixel_distance` is a plain
little-endian `uint16`. -/
def rdDecodeFrame (data : List Nat) : List RDTarget :=
  if data.length < 30 ∨ data.getD 0 0 ≠ 0xAA ∨ data.getD 1 0 ≠ 0xFF ∨
      data.getD (data.length - 2) 0 ≠ 0x55 ∨ data.getD (data.length - 1) 0 ≠ 0xCC then
    []
  else
    (List.range 3).map fun i =>
      let base := 4 + i * 8
      { x := parse_signed16 (data.getD (base + 1) 0) (data.getD base 0)
        y := parse_signed16 (data.getD (base + 3) 0) (data.getD (base + 2) 0)
        speed := parse_signed16 (data.getD (base + 5) 0) (data.getD (base + 4) 0)
        pixel_distance := data.getD (base + 6) 0 + (data.getD (base + 7) 0 <<< 8) }

/-- The `while True` frame-scanning loop of `RD03D_Async.update_async`:
repeatedly calls `_find_complete_frame` and remembers the **latest**
complete frame.  Terminates because each extracted frame consumes at
least 30 bytes of the scanned buffer. -/
def rdLatestFrame (data : List Nat) : Option (List Nat) :=
  match h : rdFindCompleteFrame data with
  | (some f, rest) =>
    match rdLatestFrame rest with
    | some g => some g
    | none => some f
  | (none, _) => none
termination_by data.length
decreasing_by
  simp only [rdFindCompleteFrame] at h
  split at h
  · simp at h
  · split at h
    · rw [Prod.mk.injEq] at h
      obtain ⟨h1, rfl⟩ := h
      rename_i s hs hc
      simp only [List.length_drop]
      omega
    · simp at h

/-- Buffer cap of `update_async`: over 300 bytes, keep the last 150
(`self.buffer = self.buffer[-150:]`). -/
def truncateBuffer (b : List Nat) : List Nat :=
  if 300 < b.length then b.drop (b.length - 150) else b

/-- Python `bytes[i:i+len(pat)] == pat`. -/
def subAt (pat hay : List Nat) (i : Nat) : Bool :=
  (hay.drop i).take pat.length = pat

/-- Python `bytes.rfind(pat)`: greatest index at which `pat` occurs. -/
def rfindSub (pat hay : List Nat) : Option Nat :=
  ((List.range (hay.length + 1)).filter (subAt pat hay)).getLast?

/-- Python `pat in hay` (substring containment). -/
def containsSub (pat hay : List Nat) : Bool :=
  (List.range (hay.length + 1)).any (subAt pat hay)

/-- Mutable fields of `RD03D_Async` relevant to target publication. -/
structure RDState where
  targets : List RDTarget
  buffer : List Nat
  deriving DecidableEq, Repr

/-- One call of `RD03D_Async.update_async` after a successful serial read
delivering `newData` (the `in_waiting`/read I/O and its error path, which
also returns `False` without touching `targets`, are outside the pure
core).  Appends to the buffer, caps it, scans for the latest complete
frame; if one is found, the buffer is cut after its **last** occurrence
(`rfind`) and only targets with `distance > 0` are stored. -/
def rd_update (s : RDState) (newData : List Nat) : RDState × Bool :=
  let buf := truncateBuffer (s.buffer ++ newData)
  match rdLatestFrame buf with
  | some f =>
    let buf' := match rfindSub f buf with
      | some i => buf.drop (i + f.length)
      | none => []
    let decoded := rdDecodeFrame f
    if decoded ≠ [] then
      ({ targets := decoded.filter hasPositiveDistance, buffer := buf' }, true)
    else
      ({ s with buffer := buf' }, false)
  | none => ({ s with buffer := buf }, false)

/-- Source `RD03D_Async.get_target` (1-based index). -/
def rd_get_target (s : RDState) (target_number : Nat) : Option RDTarget :=
  if 1 ≤ target_number ∧ target_number ≤ s.targets.length then
    s.targets.get? (target_number - 1)
  else none

/-! ## Connection handshakes (ld2450_async.connect / rd03d_async.connect)

The serial line is abstracted per handshake step as the byte sequence the
sensor delivers within that step's 1-second acknowledgement window (the
`_send_command` polling loop accumulates reads monotonically, so the
expected prefix is found iff it occurs somewhere in what arrived in
time). -/

/-- Source `LD2450_Async.ACK_ENABLE_CONFIG` (checked only up to the status word). -/
def ACK_ENABLE_CONFIG : List Nat :=
  [0xFD, 0xFC, 0xFB, 0xFA, 0x08, 0x00, 0xFF, 0x01, 0x00, 0x00]

/-- Source `LD2450_Async.ACK_SINGLE_TARGET`. -/
def ACK_SINGLE_TARGET : List Nat :=
  [0xFD, 0xFC, 0xFB, 0xFA, 0x04, 0x00, 0x80, 0x01, 0x00, 0x00]

/-- Source `LD2450_Async.ACK_END_CONFIG`. -/
def ACK_END_CONFIG : List Nat :=
  [0xFD, 0xFC, 0xFB, 0xFA, 0x04, 0x00, 0xFE, 0x01, 0x00, 0x00]

/-- Source `LD2450_Async._send_command`: succeeds iff the expected ACK bytes
occur in what the sensor sent within the 1-second window (`expected_ack_prefix
in ack_buffer`); otherwise times out and returns `False`. -/
def ld_send_command (expectedAck received : List Nat) : Bool :=
  containsSub expectedAck received

/-- Source `LD2450_Async._configure_sensor`: the 3-step sequence
Enable Config → Set Single Target → End Config; any failed step fails
the whole configuration. -/
def ld_configure_sensor (r1 r2 r3 : List Nat) : Bool :=
  ld_send_command ACK_ENABLE_CONFIG r1 &&
    (ld_send_command ACK_SINGLE_TARGET r2 && ld_send_command ACK_END_CONFIG r3)

/-- Source `LD2450_Async.connect`: opening the port then running the
configuration sequence; a failed sequence raises and is caught, and
`connect` returns `False`. -/
def ld2450_connect (portOpened : Bool) (r1 r2 r3 : List Nat) : Bool :=
  portOpened && ld_configure_sensor r1 r2 r3

/-- Source `RD03D_Async.connect` with `set_multi_mode_async`: the mode-select
command is written, the input buffer flushed — but **no acknowledgement
is awaited** and any error in mode-setting is caught and logged.
`connect` returns `True` whenever the serial port opened, regardless of
what (if anything) the sensor sent back. -/
def rd03d_connect (portOpened : Bool) (received : List Nat) : Bool :=
  portOpened

/-- Source `radar_logic.init_radar_hardware`: raises `RuntimeError` iff
`connect()` reported failure. -/
inductive StartupOutcome
  | ok
  | runtimeError
  deriving DecidableEq, Repr

def init_radar_hardware (connected : Bool) : StartupOutcome :=
  if connected then .ok else .runtimeError

/-! ## Trajectory analyzer (radar_logic._analyze_trajectory)

`np.polyfit(t, y, 1)[0]` is the simple-linear-regression slope
`Sxy / Sxx` over the (normalized) timestamps; the `LinAlgError` branch
(degenerate regression, all timestamps equal so `Sxx = 0`) returns
`NEUTRAL`, as does an empty history (the `IndexError` branch). -/

inductive Trend
  | COMING
  | LEAVING
  | NEUTRAL
  deriving DecidableEq, Repr

inductive XSign
  | negative
  | positive
  deriving DecidableEq, Repr

/-- A trend-history entry `(timestamp, x, y)` as appended by
`radar_logic_task` (`_state.history.append((current_time, target.x,
target.y))`). -/
abbrev HistEntry := ℚ × Int × Int

/-- Centered second moment `Σ (tᵢ - t̄)²` of the sample timestamps. -/
def sxxOf (ts : List ℚ) : ℚ :=
  let tbar := ts.sum / ts.length
  (ts.map fun t => (t - tbar) ^ 2).sum

/-- Centered mixed moment `Σ (tᵢ - t̄) * (yᵢ - ȳ)`. -/
def sxyOf (ts ys : List ℚ) : ℚ :=
  let tbar := ts.sum / ts.length
  let ybar := ys.sum / ys.length
  ((ts.zip ys).map fun p => (p.1 - tbar) * (p.2 - ybar)).sum

/-- Least-squares slope of `ys` over `ts` (`np.polyfit(ts, ys, 1)[0]`
whenever `sxxOf ts ≠ 0`). -/
def lsqSlope (ts ys : List ℚ) : ℚ :=
  sxyOf ts ys / sxxOf ts

/-- Residual sum of squares of the line `y = m*t + b` on the samples. -/
def rss (ts ys : List ℚ) (m b : ℚ) : ℚ :=
  ((ts.zip ys).map fun p => (p.2 - (m * p.1 + b)) ^ 2).sum

/-- Normalized timestamps `timestamps - timestamps[0]`. -/
def normTimes (history : List HistEntry) : List ℚ :=
  match history with
  | [] => []
  | (t0, _, _) :: _ => history.map fun e => e.1 - t0

/-- Source `radar_logic._analyze_trajectory`. -/
def analyze_trajectory (history : List HistEntry) (expected_sign : XSign)
    (noise_threshold_cm_s : ℚ) : Trend :=
  match history with
  | [] => Trend.NEUTRAL
  | _ :: _ =>
    let ts := normTimes history
    let ys : List ℚ := history.map fun e => (e.2.2 : ℚ)
    if sxxOf ts = 0 then Trend.NEUTRAL
    else
      let y_slope_mm_per_sec := lsqSlope ts ys
      let noise_threshold_mm_per_sec := noise_threshold_cm_s * 10
      let avg_x : ℚ := (history.map fun e => (e.2.1 : ℚ)).sum / history.length
      if y_slope_mm_per_sec < -noise_threshold_mm_per_sec then
        if (expected_sign = XSign.positive ∧ 0 < avg_x) ∨
            (expected_sign = XSign.negative ∧ avg_x < 0) then
          Trend.COMING
        else Trend.LEAVING
      else if noise_threshold_mm_per_sec < y_slope_mm_per_sec then Trend.LEAVING
      else Trend.NEUTRAL

/-! ## Decision engine (radar_logic.radar_logic_task)

The logic task is driven by an event stream: each `Event.radar t target`
is one `_radar_queue.get()` cycle (with `current_time = t`), and the
scan events are the four terminating paths of `_run_ble_scan_wrapper`
(normal result `True`/`False`, `CancelledError`, other exception), which
are the only points where the wrapper writes `ble_status`/`ble_task`.
The comfort delay only shifts the instant `time.time()` is re-read for
the cooldown deadline; we take the cycle time `t` for it. -/

inductive SystemState
  | IDLE
  | TRACKING
  | COOLDOWN
  deriving DecidableEq, Repr

inductive BLEStatus
  | UNKNOWN
  | SCANNING
  | SUCCESS
  | FAILED
  deriving DecidableEq, Repr

inductive IntentStatus
  | NEUTRAL
  | KOMMEN
  | GEHEN
  deriving DecidableEq, Repr

/-- The configuration values read by the logic task
(`config.get("radar_config....")`), constant for a run. -/
structure Config where
  expected_x_sign : XSign
  speed_noise_threshold : ℚ
  cooldown_duration : ℚ
  deriving DecidableEq, Repr

/-- The fields of a published target the logic task consumes. -/
structure Obs where
  x : Int
  y : Int
  deriving DecidableEq, Repr

/-- Source `radar_logic._RadarState` (`ble_task` models whether the
`asyncio.Task` handle is non-`None`). -/
structure RadarState where
  system_state : SystemState
  ble_status : BLEStatus
  intent_status : IntentStatus
  ble_task : Bool
  cooldown_end_time : ℚ
  history : List HistEntry
  x_sign_changed : Bool
  deriving DecidableEq, Repr

def HISTORY_SIZE : Nat := 7
def SIGN_CHANGE_Y_MAX : Int := 500
def SIGN_CHANGE_X_MAX : Int := 700

/-- Source `_RadarState()` defaults. -/
def initialState : RadarState :=
  { system_state := .IDLE, ble_status := .UNKNOWN, intent_status := .NEUTRAL
    ble_task := false, cooldown_end_time := 0, history := [], x_sign_changed := false }

/-- Source `deque(maxlen=HISTORY_SIZE).append`. -/
def appendHistory (h : List HistEntry) (e : HistEntry) : List HistEntry :=
  if h.length < HISTORY_SIZE then h ++ [e] else h.tail ++ [e]

/-- Source `radar_logic._reset_to_idle`: back to IDLE, clearing intent, history
and the display flag, while **keeping** `ble_status` (caching) and
**not** cancelling `ble_task`. -/
def resetToIdle (s : RadarState) : RadarState :=
  { s with system_state := .IDLE, intent_status := .NEUTRAL
           history := [], x_sign_changed := false }

/-- The sign-change decision of `radar_logic._check_and_trigger_door`
(Block B) on the current history: compares the two most recent entries;
an `x = 0` crossing is only valid when the **current** sample's `y` is
within `SIGN_CHANGE_Y_MAX`, `|prev_x|` within `SIGN_CHANGE_X_MAX`, and
`prev_x` strictly on the expected side; any strict sign flip is valid. -/
def checkTrigger (cfg : Config) (h : List HistEntry) : Bool :=
  match h.reverse with
  | cur :: prev :: _ =>
    let current_x := cur.2.1
    let current_y := cur.2.2
    let prev_x := prev.2.1
    if current_x = 0 then
      if ¬(SIGN_CHANGE_Y_MAX < current_y ∨ SIGN_CHANGE_X_MAX < |prev_x|) then
        match cfg.expected_x_sign with
        | .negative => decide (prev_x < 0 ∧ -SIGN_CHANGE_X_MAX < prev_x)
        | .positive => decide (0 < prev_x ∧ prev_x < SIGN_CHANGE_X_MAX)
      else false
    else if prev_x * current_x < 0 then true
    else false
  | _ => false

/-- Steps A–C of the TRACKING branch: enter TRACKING, append the
observation to the history, and start a BLE scan iff
`ble_status ∈ {UNKNOWN, FAILED}` and no task is outstanding (which sets
`ble_status := SCANNING`).  Returns the updated state and whether a scan
task was created this cycle. -/
def trackUpdate (s : RadarState) (t : ℚ) (tgt : Obs) : RadarState × Bool :=
  let s1 := { s with system_state := SystemState.TRACKING
                     history := appendHistory s.history (t, tgt.x, tgt.y) }
  if (s1.ble_status = BLEStatus.UNKNOWN ∨ s1.ble_status = BLEStatus.FAILED) ∧
      s1.ble_task = false then
    ({ s1 with ble_status := BLEStatus.SCANNING, ble_task := true }, true)
  else (s1, false)

def intentOf : Trend → IntentStatus
  | .COMING => .KOMMEN
  | .LEAVING => .GEHEN
  | .NEUTRAL => .NEUTRAL

/-- Steps D–G of the TRACKING branch: wait for a full history, run the
trend analysis (a non-NEUTRAL trend overwrites the intent), reset on
GEHEN, check the door trigger when `ble_status = SUCCESS` and intent is
KOMMEN (on success: set the cooldown deadline, enter COOLDOWN and
immediately `_reset_to_idle`), and finally reset on `ble_status =
FAILED`.  Returns the new state and whether the door was opened. -/
def trackDecide (cfg : Config) (s2 : RadarState) (t : ℚ) : RadarState × Bool :=
  if s2.history.length < HISTORY_SIZE then (s2, false)
  else
    let trend := analyze_trajectory s2.history cfg.expected_x_sign cfg.speed_noise_threshold
    let s3 := if trend ≠ Trend.NEUTRAL then { s2 with intent_status := intentOf trend } else s2
    if s3.intent_status = IntentStatus.GEHEN then (resetToIdle s3, false)
    else if s3.ble_status = BLEStatus.SUCCESS ∧ s3.intent_status = IntentStatus.KOMMEN ∧
        checkTrigger cfg s3.history = true then
      (resetToIdle { s3 with x_sign_changed := true
                             cooldown_end_time := t + cfg.cooldown_duration
                             system_state := SystemState.COOLDOWN }, true)
    else if s3.ble_status = BLEStatus.FAILED then (resetToIdle s3, false)
    else (s3, false)

inductive Event
  | radar (t : ℚ) (target : Option Obs)
  | scanOk
  | scanFail
  | scanCancelled
  | scanError
  deriving DecidableEq, Repr

/-- Result of one logic-task cycle: the new engine state, whether
`send_door_open_command` was invoked, and whether a scan task was
created. -/
structure StepResult where
  state : RadarState
  doorOpened : Bool
  startedScan : Bool
  deriving DecidableEq, Repr

/-- The scan wrapper's terminating writes (`_run_ble_scan_wrapper`):
result caches into SUCCESS/FAILED, cancellation and exceptions settle
FAILED, and the `finally` clears the task handle on every path.  Guarded
on a task actually being in flight. -/
def scanSettle (s : RadarState) (st : BLEStatus) : RadarState :=
  if s.ble_task = true then { s with ble_status := st, ble_task := false } else s

/-- One cycle of `radar_logic_task`. -/
def step (cfg : Config) (s : RadarState) (e : Event) : StepResult :=
  match e with
  | .scanOk => ⟨scanSettle s .SUCCESS, false, false⟩
  | .scanFail => ⟨scanSettle s .FAILED, false, false⟩
  | .scanCancelled => ⟨scanSettle s .FAILED, false, false⟩
  | .scanError => ⟨scanSettle s .FAILED, false, false⟩
  | .radar t target =>
    if s.system_state = SystemState.COOLDOWN then
      ⟨if s.cooldown_end_time < t then resetToIdle s else s, false, false⟩
    else
      match target with
      | none =>
        ⟨if s.system_state = SystemState.TRACKING then resetToIdle s else s, false, false⟩
      | some tgt =>
        let r1 := trackUpdate s t tgt
        let r2 := trackDecide cfg r1.1 t
        ⟨r2.1, r2.2, r1.2⟩

/-- Run the logic task over an event stream. -/
def run (cfg : Config) (s : RadarState) : List Event → RadarState
  | [] => s
  | e :: es => run cfg (step cfg s e).state es

/-- Total number of `send_door_open_command` invocations along a run. -/
def runOpens (cfg : Config) (s : RadarState) : List Event → Nat
  | [] => 0
  | e :: es =>
    (if (step cfg s e).doorOpened then 1 else 0) + runOpens cfg (step cfg s e).state es

/-- Each event paired with the engine state in which it is processed. -/
def statesAlong (cfg : Config) (s : RadarState) : List Event → List (RadarState × Event)
  | [] => []
  | e :: es => (s, e) :: statesAlong cfg (step cfg s e).state es

/-! ## Claim-level trigger conditions and concrete traces -/

/-- Acute sign-change condition as the code enforces it (necessary form):
a strict sign flip, or `x` reaching exactly 0 with the **current**
sample's `y` at most `SIGN_CHANGE_Y_MAX` and `|prev_x|` at most
`SIGN_CHANGE_X_MAX` on the expected side. -/
def acuteOkB (cfg : Config) (prev cur : HistEntry) : Bool :=
  decide (prev.2.1 * cur.2.1 < 0) ||
    (decide (cur.2.1 = 0) && decide (cur.2.2 ≤ SIGN_CHANGE_Y_MAX) &&
      decide (|prev.2.1| ≤ SIGN_CHANGE_X_MAX) &&
      (match cfg.expected_x_sign with
       | .negative => decide (prev.2.1 < 0)
       | .positive => decide (0 < prev.2.1)))

/-- Acute sign-change condition in the words of the claim: a strict sign
flip, or `x` reaching exactly 0 with the **prior** sample's `y` at most
the near-field threshold and `|prev_x|` at most the lateral threshold on
the expected side. -/
def acuteClaimedB (cfg : Config) (prev cur : HistEntry) : Bool :=
  decide (prev.2.1 * cur.2.1 < 0) ||
    (decide (cur.2.1 = 0) && decide (prev.2.2 ≤ SIGN_CHANGE_Y_MAX) &&
      decide (|prev.2.1| ≤ SIGN_CHANGE_X_MAX) &&
      (match cfg.expected_x_sign with
       | .negative => decide (prev.2.1 < 0)
       | .positive => decide (0 < prev.2.1)))

/-- Necessary trigger condition on a cycle (code form): the event carries
a target, the cached identity result is already SUCCESS, the engine is
not in COOLDOWN (so the cycle runs in TRACKING), and the two most recent
samples of the updated trend window pass `acuteOkB`. -/
def c1CondB (cfg : Config) (s : RadarState) (e : Event) : Bool :=
  match e with
  | .radar t (some tgt) =>
    decide (s.ble_status = BLEStatus.SUCCESS) &&
      decide (s.system_state ≠ SystemState.COOLDOWN) &&
      (match (appendHistory s.history (t, tgt.x, tgt.y)).reverse with
       | cur :: prev :: _ => acuteOkB cfg prev cur
       | _ => false)
  | _ => false

/-- The claim's trigger condition, differing from `c1CondB` only in
validating the **prior** sample's `y` for the zero-crossing. -/
def c1ClaimedCondB (cfg : Config) (s : RadarState) (e : Event) : Bool :=
  match e with
  | .radar t (some tgt) =>
    decide (s.ble_status = BLEStatus.SUCCESS) &&
      decide (s.system_state ≠ SystemState.COOLDOWN) &&
      (match (appendHistory s.history (t, tgt.x, tgt.y)).reverse with
       | cur :: prev :: _ => acuteClaimedB cfg prev cur
       | _ => false)
  | _ => false

/-- Configuration used by the concrete runs: expected approach side
negative, noise threshold 5 cm/s, cooldown 3 s (the source defaults). -/
def exampleCfg : Config :=
  { expected_x_sign := .negative, speed_noise_threshold := 5, cooldown_duration := 3 }

/-- An approach at the reader cadence (50 ms): the identity scan starts
on the first sample and succeeds, the trend is clearly COMING, and the
7th sample flips the x sign from −50 to +50, firing the trigger at
`t = 3/10`. -/
def traceA : List Event :=
  [ .radar 0 (some ⟨-300, 2000⟩), .scanOk
  , .radar (1/20) (some ⟨-250, 1800⟩), .radar (2/20) (some ⟨-200, 1600⟩)
  , .radar (3/20) (some ⟨-150, 1400⟩), .radar (4/20) (some ⟨-100, 1200⟩)
  , .radar (5/20) (some ⟨-50, 1000⟩), .radar (6/20) (some ⟨50, 800⟩) ]

/-- A second, identical approach entirely inside the 3-second cooldown
window of `traceA`'s trigger (timestamps 0.35 s … 0.65 s < 3.3 s). -/
def traceB : List Event :=
  [ .radar (7/20) (some ⟨-300, 2000⟩), .radar (8/20) (some ⟨-250, 1800⟩)
  , .radar (9/20) (some ⟨-200, 1600⟩), .radar (10/20) (some ⟨-150, 1400⟩)
  , .radar (11/20) (some ⟨-100, 1200⟩), .radar (12/20) (some ⟨-50, 1000⟩)
  , .radar (13/20) (some ⟨50, 800⟩) ]

/-- An approach whose trigger fires through the `x = 0` validation path
while the **prior** sample's `y` (750 mm) exceeds the 500 mm near-field
threshold; only the current sample's `y` (400 mm) is within it. -/
def traceZeroCross : List Event :=
  [ .radar 0 (some ⟨-300, 2000⟩), .scanOk
  , .radar (1/20) (some ⟨-250, 1800⟩), .radar (2/20) (some ⟨-200, 1600⟩)
  , .radar (3/20) (some ⟨-150, 1400⟩), .radar (4/20) (some ⟨-100, 1200⟩)
  , .radar (5/20) (some ⟨-50, 750⟩), .radar (6/20) (some ⟨0, 400⟩) ]

/-- A departure: the scan starts on the first sample and never finishes;
the 7th sample completes a clearly LEAVING window (y rising 800 → 2000),
taking the GEHEN reset branch while `ble_status = SCANNING`. -/
def traceLeaving : List Event :=
  [ .radar 0 (some ⟨-300, 800⟩), .radar (1/20) (some ⟨-300, 1000⟩)
  , .radar (2/20) (some ⟨-300, 1200⟩), .radar (3/20) (some ⟨-300, 1400⟩)
  , .radar (4/20) (some ⟨-300, 1600⟩), .radar (5/20) (some ⟨-300, 1800⟩)
  , .radar (6/20) (some ⟨-300, 2000⟩) ]

/-- The spec §8 example window (expected side negative): steadily
approaching from the left, classification COMING. -/
def exampleWindow : List HistEntry :=
  [ (0, -600, 1200), (1/20, -550, 1000), (2/20, -500, 900), (3/20, -400, 700)
  , (4/20, -300, 500), (5/20, -200, 400), (6/20, -100, 300) ]

/-! ## Theorems -/

/-- The LD2450 header scan only reports positions where a full frame fits:
`ldFindHeaderAux i data = some s` implies `i ≤ s` and
`s - i + 30 ≤ data.length`. -/
theorem ldFindHeaderAux_bound : ∀ (data : List Nat) (i s : Nat),
    ldFindHeaderAux i data = some s → i ≤ s ∧ s - i + 30 ≤ data.length := by
  intro data
  induction data with
  | nil => intro i s h; simp [ldFindHeaderAux] at h
  | cons a tail ih =>
    intro i s h
    rcases tail with - | ⟨b, tail2⟩
    · simp [ldFindHeaderAux] at h
    rcases tail2 with - | ⟨c, tail3⟩
    · simp [ldFindHeaderAux] at h
    rcases tail3 with - | ⟨d, rest⟩
    · simp [ldFindHeaderAux] at h
    rw [ldFindHeaderAux] at h
    split at h
    · exact absurd h (by simp)
    split at h
    · rename_i hlen hdr
      obtain rfl : i = s := by simpa using h
      simp only [List.length_cons] at hlen ⊢
      omega
    · have hb := ih (i + 1) s h
      simp only [List.length_cons] at hb ⊢
      omega

/-- C5, amended.  On a found header with a full-length span and a bad
trailing marker, the LD2450 decoder discards the bytes up through that
header (4 bytes past its start) and strictly shrinks the buffer, so
rescanning makes progress; the RD03D decoder instead keeps the buffer
**from** the bad header, returning it unchanged whenever the header is
at position 0 — it never advances past the corrupt frame on its own
(only the caller's 300-byte cap bounds this). -/
theorem frame_resync_behavior :
    (∀ (data : List Nat) (s : Nat), ldFindHeader data = some s →
      ¬(data.getD (s + 28) 0 = 0x55 ∧ data.getD (s + 29) 0 = 0xCC) →
      ldFindCompleteFrame data = (none, data.drop (s + 4)) ∧
        (data.drop (s + 4)).length < data.length) ∧
    (∀ (data : List Nat) (s : Nat), rdFindStart data = some s →
      s + 30 ≤ data.length →
      ¬(data.getD (s + 28) 0 = 0x55 ∧ data.getD (s + 29) 0 = 0xCC) →
      rdFindCompleteFrame data = (none, data.drop s)) := by
  constructor
  · intro data s h htail
    have hb := ldFindHeaderAux_bound data 0 s h
    have hlen : s + 30 ≤ data.length := by omega
    constructor
    · rw [ldFindCompleteFrame, h]
      dsimp only
      rw [if_pos hlen, if_neg htail]
    · simp only [List.length_drop]
      omega
  · intro data s h hlen htail
    rw [rdFindCompleteFrame, h]
    dsimp only
    rw [if_neg]
    intro hc
    exact htail ⟨hc.2.1, hc.2.2⟩

/-- C5, counterexample.  A buffer holding a full-length RD03D span with a
valid header at position 0 but a bad tail is returned **unchanged** by
`RD03D_Async._find_complete_frame`: the scan gets stuck at the bad
header instead of discarding it. -/
theorem rd03d_no_resync_progress :
    rdFindStart (0xAA :: 0xFF :: List.replicate 28 0) = some 0 ∧
    (0xAA :: 0xFF :: List.replicate 28 0 : List Nat).length = 30 ∧
    (0xAA :: 0xFF :: List.replicate 28 0 : List Nat).getD 28 0 ≠ 0x55 ∧
    rdFindCompleteFrame (0xAA :: 0xFF :: List.replicate 28 0) =
      (none, 0xAA :: 0xFF :: List.replicate 28 0) := by
  refine ⟨by decide, by decide, by decide, ?_⟩
  decide

/-- C5 witness: the amended theorem applied to a concrete corrupt LD2450
buffer (header at 0, bad tail) and the concrete corrupt RD03D buffer. -/
theorem frame_resync_behavior_witness :
    (ldFindCompleteFrame (0xAA :: 0xFF :: 0x03 :: 0x00 :: List.replicate 26 0) =
      (none, List.replicate 26 0) ∧
      (List.replicate 26 (0 : Nat)).length < 30) ∧
    rdFindCompleteFrame (0xAA :: 0xFF :: List.replicate 28 0) =
      (none, 0xAA :: 0xFF :: List.replicate 28 0) := by
  constructor
  · have h := frame_resync_behavior.1 (0xAA :: 0xFF :: 0x03 :: 0x00 :: List.replicate 26 0) 0
      (by decide) (by decide)
    constructor
    · have h1 := h.1
      simpa using h1
    · decide
  · exact frame_resync_behavior.2 (0xAA :: 0xFF :: List.replicate 28 0) 0
      (by decide) (by decide) (by decide)

/-- For 16-bit values, the `0x8000` mask is zero exactly below `2^15`. -/
theorem and_bit15_eq_zero_iff (raw : Nat) (hlt : raw < 65536) :
    (raw &&& 32768 = 0) ↔ raw < 32768 := by
  have h := Nat.and_two_pow raw 15
  have h2 : raw.testBit 15 = decide (raw / 2 ^ 15 % 2 = 1) := Nat.testBit_to_div_mod ..
  rw [h2] at h
  norm_num at h
  rcases Nat.lt_or_ge raw 32768 with hc | hc
  · have hd : ¬(raw / 32768 % 2 = 1) := by omega
    rw [decide_eq_false hd] at h
    simp only [Bool.toNat_false, Nat.zero_mul] at h
    simp [h, hc]
  · have hd : raw / 32768 % 2 = 1 := by omega
    rw [decide_eq_true hd] at h
    simp only [Bool.toNat_true, Nat.one_mul] at h
    rw [h]
    constructor
    · intro hx; omega
    · intro hx; omega

/-- The low-15-bit mask is reduction mod `2^15`. -/
theorem and_low15_eq_mod (raw : Nat) : raw &&& 32767 = raw % 32768 := by
  have h := Nat.and_pow_two_sub_one_eq_mod raw 15
  norm_num at h
  exact h

/-- C6, amended.  Both sign-magnitude decoders agree; the decoded value's
magnitude is the low 15 bits and its sign is carried by bit 15 (set ->
non-negative, clear -> non-positive); decoding then re-encoding restores
every 16-bit encoding whose 15-bit magnitude is non-zero.  (The two zero
encodings `0x0000` and `0x8000` both decode to `0`, so they cannot both
round-trip — see the counterexample.) -/
theorem sign_magnitude_decode_props : ∀ lo hi : Nat, lo < 256 → hi < 256 →
    ((ld_parse_sign_magnitude lo hi).natAbs = (lo + 256 * hi) &&& 0x7FFF) ∧
    ((lo + 256 * hi) &&& 0x8000 ≠ 0 → 0 ≤ ld_parse_sign_magnitude lo hi) ∧
    ((lo + 256 * hi) &&& 0x8000 = 0 → ld_parse_sign_magnitude lo hi ≤ 0) ∧
    ((lo + 256 * hi) &&& 0x7FFF ≠ 0 →
      signMagEncode (ld_parse_sign_magnitude lo hi) = lo + 256 * hi) ∧
    parse_signed16 hi lo = ld_parse_sign_magnitude lo hi := by
  intro lo hi hlo hhi
  have hsh : (hi <<< 8) + lo = lo + 256 * hi := by
    rw [Nat.shiftLeft_eq]
    ring
  simp only [ld_parse_sign_magnitude, parse_signed16, hsh]
  have hlt : lo + 256 * hi < 65536 := by omega
  generalize hg : lo + 256 * hi = raw at *
  have hm : raw &&& 32767 = raw % 32768 := and_low15_eq_mod raw
  rcases Nat.lt_or_ge raw 32768 with hc | hc
  · have hz : raw &&& 32768 = 0 := (and_bit15_eq_zero_iff raw hlt).mpr hc
    have hmr : raw &&& 32767 = raw := by rw [hm]; omega
    rw [hz, hmr]
    simp only [ne_eq, not_true_eq_false, if_false, ite_false]
    refine ⟨?_, fun h => h.elim, fun _ => neg_nonpos.mpr (Int.natCast_nonneg _), ?_, neg_one_mul _⟩
    · rw [Int.natAbs_neg]
      exact Int.natAbs_ofNat _
    · intro hne
      rw [signMagEncode, if_neg (not_lt.mpr (neg_nonpos.mpr (Int.natCast_nonneg _))), neg_neg]
      exact Int.toNat_natCast raw
  · have hz : raw &&& 32768 ≠ 0 := fun hx => by
      rw [and_bit15_eq_zero_iff raw hlt] at hx
      omega
    have hmr : raw &&& 32767 = raw - 32768 := by rw [hm]; omega
    rw [hmr]
    simp only [if_pos hz]
    refine ⟨Int.natAbs_ofNat _, fun _ => Int.natCast_nonneg _, fun hx => absurd hx hz, ?_, one_mul _⟩
    intro hne
    rw [signMagEncode, if_pos (Int.natCast_pos.mpr (Nat.pos_of_ne_zero hne)), Int.toNat_natCast]
    omega
/-- C6, counterexample.  The two zero encodings decode to the same value
`0`, so decoding is not injective on 16-bit encodings and re-encoding
cannot restore both: with the natural inverse encoder, `0x8000`
(`lo = 0x00, hi = 0x80`) comes back as `0x0000`. -/
theorem sign_magnitude_zero_no_roundtrip :
    ld_parse_sign_magnitude 0x00 0x80 = ld_parse_sign_magnitude 0x00 0x00 ∧
    signMagEncode (ld_parse_sign_magnitude 0x00 0x80) = 0x0000 ∧
    (0x00 + 256 * 0x80 : Nat) = 0x8000 ∧ (0x0000 : Nat) ≠ 0x8000 := by
  refine ⟨by decide, by decide, by decide, by decide⟩

/-- C6 witness: the amended theorem at the encoding `0x8123`
(`lo = 0x23, hi = 0x81`, bit 15 set, magnitude `0x0123`). -/
theorem sign_magnitude_decode_props_witness :
    (0x23 + 256 * 0x81 : Nat) &&& 0x7FFF ≠ 0 ∧
    signMagEncode (ld_parse_sign_magnitude 0x23 0x81) = 0x23 + 256 * 0x81 ∧
    parse_signed16 0x81 0x23 = ld_parse_sign_magnitude 0x23 0x81 := by
  have h := sign_magnitude_decode_props 0x23 0x81 (by decide) (by decide)
  exact ⟨by decide, h.2.2.2.1 (by decide), h.2.2.2.2⟩

/-- C9, amended.  The LD2450 `connect()` succeeds exactly when the port
opened and each of the three handshake steps saw its expected
acknowledgement bytes within its 1-second window, and a failed connect
makes `init_radar_hardware` raise; the RD03D `connect()`, however,
awaits **no** acknowledgement at all — it reports success whenever the
serial port opened, regardless of the bytes received. -/
theorem connect_handshake_behavior :
    (∀ (p : Bool) (r1 r2 r3 : List Nat),
      ld2450_connect p r1 r2 r3 = true ↔
        p = true ∧ containsSub ACK_ENABLE_CONFIG r1 = true ∧
          containsSub ACK_SINGLE_TARGET r2 = true ∧
          containsSub ACK_END_CONFIG r3 = true) ∧
    (∀ (p : Bool) (r : List Nat), rd03d_connect p r = p) ∧
    (∀ c : Bool, init_radar_hardware c = StartupOutcome.runtimeError ↔ c = false) := by
  refine ⟨?_, fun p r => rfl, ?_⟩
  · intro p r1 r2 r3
    simp [ld2450_connect, ld_configure_sensor, ld_send_command, Bool.and_eq_true, and_assoc]
  · intro c
    cases c <;> simp [init_radar_hardware]

/-- C9, counterexample.  With the serial port open but the sensor silent
(no acknowledgement bytes whatsoever), the RD03D `connect()` still
reports success and radar initialization proceeds without a startup
error — refuting the claim that both variants fail `connect()` when an
expected acknowledgement is missing. -/
theorem rd03d_connect_without_ack :
    rd03d_connect true [] = true ∧
    init_radar_hardware (rd03d_connect true []) = StartupOutcome.ok ∧
    ld2450_connect true [] [] [] = false := by
  refine ⟨rfl, rfl, by decide⟩

/-- C9 witness: the amended theorem at a concrete exchange in which the
LD2450 receives exactly its three acknowledgement frames. -/
theorem connect_handshake_behavior_witness :
    ld2450_connect true ACK_ENABLE_CONFIG ACK_SINGLE_TARGET ACK_END_CONFIG = true ∧
    rd03d_connect false [] = false ∧
    init_radar_hardware false = StartupOutcome.runtimeError := by
  refine ⟨?_, connect_handshake_behavior.2.1 false [], ?_⟩
  · exact (connect_handshake_behavior.1 true ACK_ENABLE_CONFIG ACK_SINGLE_TARGET
      ACK_END_CONFIG).mpr ⟨rfl, by decide, by decide, by decide⟩
  · exact (connect_handshake_behavior.2.2 false).mpr rfl

/-- C10, confirmed.  If `update_async` decodes no new complete frame
(returns `False`), the stored target list — and hence `get_target(1)` —
is unchanged; whenever it returns `True` the stored list is exactly the
latest decoded frame's targets with `distance > 0`; in particular the
list can only become empty (explicit absence) through a successfully
decoded frame all of whose targets sit at the origin. -/
theorem rd_update_frame_effect : ∀ (s : RDState) (d : List Nat),
    ((rd_update s d).2 = false → (rd_update s d).1.targets = s.targets ∧
      rd_get_target (rd_update s d).1 1 = rd_get_target s 1) ∧
    ((rd_update s d).2 = true →
      ∃ f, rdLatestFrame (truncateBuffer (s.buffer ++ d)) = some f ∧
        (rd_update s d).1.targets = (rdDecodeFrame f).filter hasPositiveDistance) ∧
    (s.targets ≠ [] → (rd_update s d).1.targets = [] →
      (rd_update s d).2 = true ∧
      ∃ f, rdLatestFrame (truncateBuffer (s.buffer ++ d)) = some f ∧
        ∀ t ∈ rdDecodeFrame f, t.x = 0 ∧ t.y = 0) := by
  intro s d
  rcases hf : rdLatestFrame (truncateBuffer (s.buffer ++ d)) with - | f
  · simp only [rd_update, hf]
    refine ⟨fun _ => ⟨by trivial, by trivial⟩, fun h => by simp at h, fun hne hemp => ?_⟩
    exact absurd hemp hne
  · simp only [rd_update, hf]
    by_cases hd : rdDecodeFrame f ≠ []
    · simp only [if_pos hd]
      refine ⟨fun h => by simp at h, fun _ => ⟨f, by trivial, by trivial⟩, fun hne hemp => ?_⟩
      refine ⟨by trivial, f, by trivial, ?_⟩
      intro t ht
      have := List.filter_eq_nil_iff.mp hemp t ht
      simp only [hasPositiveDistance] at this
      simpa using this
    · simp only [if_neg hd]
      refine ⟨fun _ => ⟨by trivial, by trivial⟩, fun h => by simp at h, fun hne hemp => ?_⟩
      exact absurd hemp hne

/-- The frame-scanning loop finds nothing in an empty buffer. -/
theorem rdLatestFrame_nil : rdLatestFrame [] = none := by
  unfold rdLatestFrame
  rfl

/-- An update cycle of `rd_update` that delivers no bytes onto an empty
buffer decodes nothing and reports `False`. -/
theorem rd_update_nil_eval :
    rd_update ⟨[⟨1, 2, 3, 4⟩], []⟩ [] = (⟨[⟨1, 2, 3, 4⟩], []⟩, false) := by
  have ht : truncateBuffer ([] ++ []) = [] := rfl
  simp only [rd_update, ht, rdLatestFrame_nil]

/-- C10 witness: an update cycle delivering no bytes leaves a previously
stored target in place and `get_target(1)` still returns it. -/
theorem rd_update_frame_effect_witness :
    (rd_update ⟨[⟨1, 2, 3, 4⟩], []⟩ []).2 = false ∧
    (rd_update ⟨[⟨1, 2, 3, 4⟩], []⟩ []).1.targets = [⟨1, 2, 3, 4⟩] ∧
    rd_get_target (rd_update ⟨[⟨1, 2, 3, 4⟩], []⟩ []).1 1 = some ⟨1, 2, 3, 4⟩ := by
  have h := (rd_update_frame_effect ⟨[⟨1, 2, 3, 4⟩], []⟩ []).1
    (by rw [rd_update_nil_eval])
  refine ⟨by rw [rd_update_nil_eval], ?_, ?_⟩
  · rw [h.1]
  · rw [h.2]
    decide

/-! ### Constructor distinctness facts used by the evaluation proofs -/

@[simp] theorem ss1 : SystemState.IDLE ≠ SystemState.COOLDOWN := by decide
@[simp] theorem ss2 : SystemState.TRACKING ≠ SystemState.COOLDOWN := by decide
@[simp] theorem ss3 : SystemState.IDLE ≠ SystemState.TRACKING := by decide
@[simp] theorem ss4 : SystemState.TRACKING ≠ SystemState.IDLE := by decide
@[simp] theorem bs1 : BLEStatus.SUCCESS ≠ BLEStatus.UNKNOWN := by decide
@[simp] theorem bs2 : BLEStatus.SUCCESS ≠ BLEStatus.FAILED := by decide
@[simp] theorem bs3 : BLEStatus.SCANNING ≠ BLEStatus.UNKNOWN := by decide
@[simp] theorem bs4 : BLEStatus.SCANNING ≠ BLEStatus.FAILED := by decide
@[simp] theorem bs5 : BLEStatus.SCANNING ≠ BLEStatus.SUCCESS := by decide
@[simp] theorem bs6 : BLEStatus.UNKNOWN ≠ BLEStatus.SUCCESS := by decide
@[simp] theorem bs7 : BLEStatus.UNKNOWN ≠ BLEStatus.FAILED := by decide
@[simp] theorem bs8 : BLEStatus.FAILED ≠ BLEStatus.SUCCESS := by decide
@[simp] theorem tr1 : Trend.COMING ≠ Trend.NEUTRAL := by decide
@[simp] theorem tr2 : Trend.LEAVING ≠ Trend.NEUTRAL := by decide
@[simp] theorem tr3 : Trend.NEUTRAL ≠ Trend.COMING := by decide
@[simp] theorem it1 : IntentStatus.KOMMEN ≠ IntentStatus.GEHEN := by decide
@[simp] theorem it2 : IntentStatus.NEUTRAL ≠ IntentStatus.GEHEN := by decide
@[simp] theorem it3 : IntentStatus.NEUTRAL ≠ IntentStatus.KOMMEN := by decide
@[simp] theorem it4 : IntentStatus.GEHEN ≠ IntentStatus.KOMMEN := by decide

/-! ### Structural lemmas about the engine step -/

theorem trackDecide_preserves_ble (cfg : Config) (s2 : RadarState) (t : ℚ) :
    (trackDecide cfg s2 t).1.ble_status = s2.ble_status ∧
    (trackDecide cfg s2 t).1.ble_task = s2.ble_task := by
  unfold trackDecide
  split
  · exact ⟨rfl, rfl⟩
  by_cases ht : analyze_trajectory s2.history cfg.expected_x_sign cfg.speed_noise_threshold ≠
      Trend.NEUTRAL
  · simp only [if_pos ht]
    split
    · exact ⟨rfl, rfl⟩
    split
    · exact ⟨rfl, rfl⟩
    split
    · exact ⟨rfl, rfl⟩
    · exact ⟨rfl, rfl⟩
  · simp only [if_neg ht]
    split
    · exact ⟨rfl, rfl⟩
    split
    · exact ⟨rfl, rfl⟩
    split
    · exact ⟨rfl, rfl⟩
    · exact ⟨rfl, rfl⟩

theorem trackDecide_opened (cfg : Config) (s2 : RadarState) (t : ℚ)
    (h : (trackDecide cfg s2 t).2 = true) :
    s2.ble_status = BLEStatus.SUCCESS ∧ checkTrigger cfg s2.history = true ∧
    HISTORY_SIZE ≤ s2.history.length ∧
    (trackDecide cfg s2 t).1 =
      { system_state := .IDLE, ble_status := s2.ble_status, intent_status := .NEUTRAL
        ble_task := s2.ble_task, cooldown_end_time := t + cfg.cooldown_duration
        history := [], x_sign_changed := false } := by
  unfold trackDecide at h ⊢
  split at h
  · exact absurd h (by simp)
  rename_i hlen
  by_cases ht : analyze_trajectory s2.history cfg.expected_x_sign cfg.speed_noise_threshold ≠
      Trend.NEUTRAL
  · simp only [if_pos ht] at h ⊢
    split at h
    · exact absurd h (by simp)
    split at h
    · rename_i hcond
      obtain ⟨hs, hk, htr⟩ := hcond
      refine ⟨hs, htr, by omega, ?_⟩
      rename_i hgehen
      rw [if_neg (by omega : ¬s2.history.length < HISTORY_SIZE), if_neg hgehen,
        if_pos ⟨hs, hk, htr⟩]
      rfl
    split at h
    · exact absurd h (by simp)
    · exact absurd h (by simp)
  · simp only [if_neg ht] at h ⊢
    split at h
    · exact absurd h (by simp)
    split at h
    · rename_i hcond
      obtain ⟨hs, hk, htr⟩ := hcond
      rename_i hgehen
      refine ⟨hs, htr, by omega, ?_⟩
      rw [if_neg (by omega : ¬s2.history.length < HISTORY_SIZE), if_neg hgehen,
        if_pos ⟨hs, hk, htr⟩]
      rfl
    split at h
    · exact absurd h (by simp)
    · exact absurd h (by simp)

theorem trackUpdate_history (s : RadarState) (t : ℚ) (tgt : Obs) :
    (trackUpdate s t tgt).1.history = appendHistory s.history (t, tgt.x, tgt.y) := by
  simp only [trackUpdate]
  split <;> rfl

theorem trackUpdate_success_iff (s : RadarState) (t : ℚ) (tgt : Obs) :
    (trackUpdate s t tgt).1.ble_status = BLEStatus.SUCCESS ↔
      s.ble_status = BLEStatus.SUCCESS := by
  simp only [trackUpdate]
  split
  · rename_i hc
    constructor
    · intro hx
      exact absurd hx (by simp)
    · intro hx
      rcases hc.1 with h1 | h1 <;> rw [hx] at h1 <;> exact absurd h1 (by simp)
  · exact Iff.rfl

theorem trackUpdate_task_of_success (s : RadarState) (t : ℚ) (tgt : Obs)
    (h : (trackUpdate s t tgt).1.ble_status = BLEStatus.SUCCESS) :
    (trackUpdate s t tgt).1.ble_task = s.ble_task := by
  simp only [trackUpdate] at h ⊢
  split at h
  · exact absurd h (by simp)
  · rename_i hc
    rw [if_neg hc]

theorem trackUpdate_started (s : RadarState) (t : ℚ) (tgt : Obs)
    (h : (trackUpdate s t tgt).2 = true) :
    s.ble_task = false ∧
    (s.ble_status = BLEStatus.UNKNOWN ∨ s.ble_status = BLEStatus.FAILED) ∧
    (trackUpdate s t tgt).1.ble_status = BLEStatus.SCANNING ∧
    (trackUpdate s t tgt).1.ble_task = true := by
  simp only [trackUpdate] at h ⊢
  split at h
  · rename_i hcond
    exact ⟨hcond.2, hcond.1, by rw [if_pos hcond], by rw [if_pos hcond]⟩
  · exact absurd h (by simp)

theorem trackUpdate_scanning (s : RadarState) (t : ℚ) (tgt : Obs)
    (h1 : s.ble_status = BLEStatus.SCANNING) :
    (trackUpdate s t tgt).1.ble_status = BLEStatus.SCANNING ∧
    (trackUpdate s t tgt).1.ble_task = s.ble_task := by
  simp only [trackUpdate]
  split
  · rename_i hc
    rcases hc.1 with h2 | h2 <;> rw [h1] at h2 <;> exact absurd h2 (by simp)
  · exact ⟨h1, rfl⟩

theorem checkTrigger_imp_acute (cfg : Config) (h : List HistEntry)
    (hc : checkTrigger cfg h = true) :
    match h.reverse with
    | cur :: prev :: _ => acuteOkB cfg prev cur = true
    | _ => False := by
  unfold checkTrigger at hc
  rcases hr : h.reverse with - | ⟨cur, - | ⟨prev, rest⟩⟩ <;> rw [hr] at hc
  · simp at hc
  · simp at hc
  dsimp only at hc ⊢
  unfold acuteOkB
  by_cases h0 : cur.2.1 = 0
  · rw [if_pos h0] at hc
    split at hc
    · rename_i hthr
      push_neg at hthr
      rw [h0]
      simp only [Bool.or_eq_true, Bool.and_eq_true, decide_eq_true_eq]
      right
      cases hsign : cfg.expected_x_sign <;> rw [hsign] at hc <;>
        have hp := of_decide_eq_true hc
      · exact ⟨⟨⟨trivial, hthr.1⟩, hthr.2⟩, decide_eq_true hp.1⟩
      · exact ⟨⟨⟨trivial, hthr.1⟩, hthr.2⟩, decide_eq_true hp.1⟩
    · exact absurd hc (by simp)
  · rw [if_neg h0] at hc
    split at hc
    · rename_i hflip
      simp only [Bool.or_eq_true, decide_eq_true_eq]
      exact Or.inl hflip
    · exact absurd hc (by simp)

theorem step_opened_cond (cfg : Config) (s : RadarState) (e : Event)
    (h : (step cfg s e).doorOpened = true) : c1CondB cfg s e = true := by
  cases e with
  | scanOk => exact absurd h (by simp [step, scanSettle])
  | scanFail => exact absurd h (by simp [step, scanSettle])
  | scanCancelled => exact absurd h (by simp [step, scanSettle])
  | scanError => exact absurd h (by simp [step, scanSettle])
  | radar t target =>
    simp only [step] at h
    split at h
    · exact absurd h (by simp)
    rename_i hcool
    cases target with
    | none => exact absurd h (by simp)
    | some tgt =>
      dsimp only at h
      have hod := trackDecide_opened cfg (trackUpdate s t tgt).1 t h
      have hble : s.ble_status = BLEStatus.SUCCESS :=
        (trackUpdate_success_iff s t tgt).mp hod.1
      have hacute := checkTrigger_imp_acute cfg (trackUpdate s t tgt).1.history hod.2.1
      rw [trackUpdate_history s t tgt] at hacute
      unfold c1CondB
      rw [Bool.and_eq_true, Bool.and_eq_true]
      refine ⟨⟨decide_eq_true hble, decide_eq_true hcool⟩, ?_⟩
      rcases hrev : (appendHistory s.history (t, tgt.x, tgt.y)).reverse with - | ⟨cur, - | ⟨prev, rest⟩⟩ <;>
        rw [hrev] at hacute
      · exact hacute.elim
      · exact hacute.elim
      · exact hacute

/-- C1, amended.  `send_door_open_command` is issued only in a cycle that
processes a radar target while the engine is not in COOLDOWN (hence in
TRACKING after the same-cycle IDLE promotion), with the cached identity
result already SUCCESS, and with the two most recent samples of the
updated trend window passing the acute check — where the zero-crossing
case validates the **current** sample's `y` against the near-field
threshold (the claim said the prior sample's `y`; see the
counterexample).  For every input sequence along which this condition
never holds, no door-open command is ever sent. -/
theorem no_premature_open_run (cfg : Config) (s0 : RadarState) (evs : List Event)
    (h : ∀ p ∈ statesAlong cfg s0 evs, c1CondB cfg p.1 p.2 = false) :
    runOpens cfg s0 evs = 0 := by
  induction evs generalizing s0 with
  | nil => rfl
  | cons e es ih =>
    have h0 : c1CondB cfg s0 e = false := h (s0, e) (by simp [statesAlong])
    have hop : (step cfg s0 e).doorOpened = false := by
      cases hb : (step cfg s0 e).doorOpened
      · rfl
      · rw [step_opened_cond cfg s0 e hb] at h0
        exact absurd h0 (by simp)
    unfold runOpens
    rw [hop, if_neg (by simp)]
    rw [Nat.zero_add]
    exact ih (step cfg s0 e).state fun p hp => h p (by simp [statesAlong, hp])

theorem scanSettle_task (s : RadarState) (st : BLEStatus) :
    (scanSettle s st).ble_task = false := by
  unfold scanSettle
  split
  · rfl
  · rename_i hc
    simp at hc
    exact hc

theorem scanSettle_status (s : RadarState) (st : BLEStatus) (h : s.ble_task = true) :
    (scanSettle s st).ble_status = st := by
  unfold scanSettle
  rw [if_pos h]

theorem resetToIdle_ble (s : RadarState) :
    (resetToIdle s).ble_status = s.ble_status ∧ (resetToIdle s).ble_task = s.ble_task :=
  ⟨rfl, rfl⟩

theorem step_radar_keeps_scanning (cfg : Config) (s : RadarState) (t : ℚ) (o : Option Obs)
    (h1 : s.ble_status = BLEStatus.SCANNING) (h2 : s.ble_task = true) :
    (step cfg s (Event.radar t o)).state.ble_status = BLEStatus.SCANNING ∧
    (step cfg s (Event.radar t o)).state.ble_task = true := by
  simp only [step]
  split
  · split <;> exact ⟨h1, h2⟩
  cases o with
  | none =>
    dsimp only
    split <;> exact ⟨h1, h2⟩
  | some tgt =>
    dsimp only
    have hu := trackUpdate_scanning s t tgt h1
    have hd := trackDecide_preserves_ble cfg (trackUpdate s t tgt).1 t
    rw [hd.1, hd.2, hu.1, hu.2]
    exact ⟨rfl, h2⟩

theorem step_started_scan (cfg : Config) (s : RadarState) (e : Event)
    (h : (step cfg s e).startedScan = true) :
    s.ble_task = false ∧
    (s.ble_status = BLEStatus.UNKNOWN ∨ s.ble_status = BLEStatus.FAILED) ∧
    (step cfg s e).state.ble_status = BLEStatus.SCANNING ∧
    (step cfg s e).state.ble_task = true := by
  cases e with
  | scanOk => exact absurd h (by simp [step])
  | scanFail => exact absurd h (by simp [step])
  | scanCancelled => exact absurd h (by simp [step])
  | scanError => exact absurd h (by simp [step])
  | radar t target =>
    simp only [step] at h ⊢
    split at h
    · exact absurd h (by simp)
    rename_i hcool
    rw [if_neg hcool]
    cases target with
    | none => exact absurd h (by simp)
    | some tgt =>
      dsimp only at h ⊢
      have hs := trackUpdate_started s t tgt h
      have hd := trackDecide_preserves_ble cfg (trackUpdate s t tgt).1 t
      rw [hd.1, hd.2]
      exact ⟨hs.1, hs.2.1, hs.2.2.1, hs.2.2.2⟩

/-- C7, amended.  On every successful door-open trigger the engine sets
the cooldown deadline and clears the trend history, intent and display
flag — but `_reset_to_idle` (called right after the assignment to
COOLDOWN) leaves the system state at IDLE, and it deliberately
**preserves** the cached BLE result, which is still SUCCESS, and the
task handle; a subsequent approach must re-earn only the motion check. -/
theorem step_opened_effect (cfg : Config) (s : RadarState) (t : ℚ) (tgt : Obs)
    (h : (step cfg s (Event.radar t (some tgt))).doorOpened = true) :
    (step cfg s (Event.radar t (some tgt))).state.system_state = SystemState.IDLE ∧
    (step cfg s (Event.radar t (some tgt))).state.history = [] ∧
    (step cfg s (Event.radar t (some tgt))).state.intent_status = IntentStatus.NEUTRAL ∧
    (step cfg s (Event.radar t (some tgt))).state.x_sign_changed = false ∧
    (step cfg s (Event.radar t (some tgt))).state.ble_status = BLEStatus.SUCCESS ∧
    (step cfg s (Event.radar t (some tgt))).state.ble_task = s.ble_task ∧
    (step cfg s (Event.radar t (some tgt))).state.cooldown_end_time =
      t + cfg.cooldown_duration := by
  simp only [step] at h ⊢
  split at h
  · exact absurd h (by simp)
  rename_i hcool
  rw [if_neg hcool]
  dsimp only at h ⊢
  have hod := trackDecide_opened cfg (trackUpdate s t tgt).1 t h
  rw [hod.2.2.2, hod.1]
  exact ⟨rfl, rfl, rfl, rfl, rfl, trackUpdate_task_of_success s t tgt hod.1, rfl⟩

/-- C1, counterexample.  A run in which the engine opens the door via the
`x = 0` crossing although the **prior** sample's `y` (750 mm) exceeds the
500 mm near-field threshold: the claim's trigger condition (validating
the prior sample's `y`) holds at no point of the run, yet
`send_door_open_command` is invoked once. -/
theorem zero_cross_prior_y_counterexample :
    runOpens exampleCfg initialState traceZeroCross = 1 ∧
    (statesAlong exampleCfg initialState traceZeroCross).all
      (fun p => !c1ClaimedCondB exampleCfg p.1 p.2) = true := by
  norm_num [run, runOpens, statesAlong, step, traceZeroCross, trackUpdate, trackDecide,
    appendHistory, resetToIdle, scanSettle, intentOf, exampleCfg, initialState, HISTORY_SIZE,
    checkTrigger, analyze_trajectory, normTimes, sxxOf, sxyOf, lsqSlope,
    c1ClaimedCondB, acuteClaimedB, SIGN_CHANGE_Y_MAX, SIGN_CHANGE_X_MAX]

/-- C1 witness: the amended theorem applied to the departing run, along
which the trigger condition never holds and no door-open is issued. -/
theorem no_premature_open_run_witness :
    (∀ p ∈ statesAlong exampleCfg initialState traceLeaving,
      c1CondB exampleCfg p.1 p.2 = false) ∧
    runOpens exampleCfg initialState traceLeaving = 0 := by
  have hall : (statesAlong exampleCfg initialState traceLeaving).all
      (fun p => !c1CondB exampleCfg p.1 p.2) = true := by
    norm_num [run, statesAlong, step, traceLeaving, trackUpdate, trackDecide,
      appendHistory, resetToIdle, scanSettle, intentOf, exampleCfg, initialState,
      HISTORY_SIZE, checkTrigger, analyze_trajectory, normTimes, sxxOf, sxyOf, lsqSlope,
      c1CondB, acuteOkB, SIGN_CHANGE_Y_MAX, SIGN_CHANGE_X_MAX]
  have hc : ∀ p ∈ statesAlong exampleCfg initialState traceLeaving,
      c1CondB exampleCfg p.1 p.2 = false := by
    intro p hp
    have := List.all_eq_true.mp hall p hp
    simpa using this
  exact ⟨hc, no_premature_open_run exampleCfg initialState traceLeaving hc⟩

/-- C2, code bug.  The code's own comment (`# Erfolgreich geöffnet ->
COOLDOWN`) and its dedicated COOLDOWN branch intend the engine to stay in
COOLDOWN until the deadline passes, but `_reset_to_idle()` — invoked on
the very next line — overwrites the state back to IDLE, making the
COOLDOWN branch unreachable.  Concretely: after a trigger at `t = 3/10`
with a 3-second cooldown (deadline `33/10`), the engine sits in IDLE with
the identity cache still SUCCESS, and a second approach finishing at
`t = 13/20 < 33/10` opens the door again inside the cooldown window. -/
theorem cooldown_retrigger_bug :
    runOpens exampleCfg initialState (traceA ++ traceB) = 2 ∧
    runOpens exampleCfg initialState traceA = 1 ∧
    (run exampleCfg initialState traceA).system_state = SystemState.IDLE ∧
    (run exampleCfg initialState traceA).cooldown_end_time = 33 / 10 ∧
    ((13 : ℚ) / 20 < 33 / 10) := by
  norm_num [run, runOpens, step, traceA, traceB, trackUpdate, trackDecide, appendHistory,
    resetToIdle, scanSettle, intentOf, exampleCfg, initialState, HISTORY_SIZE, checkTrigger,
    analyze_trajectory, normTimes, sxxOf, sxyOf, lsqSlope]

/-- C3, counterexample.  A departing subject (trend LEAVING on the 7th
sample) while the identity scan is still in flight: after the GEHEN reset
the outstanding scan is **not** cancelled and `ble_status` is still
SCANNING (the claim said the scan is cancelled and the status becomes
FAILED); only system state, intent and the trend window are reset. -/
theorem leaving_scan_not_cancelled :
    analyze_trajectory [(0, -300, 800), (1/20, -300, 1000), (2/20, -300, 1200),
        (3/20, -300, 1400), (4/20, -300, 1600), (5/20, -300, 1800), (6/20, -300, 2000)]
      XSign.negative 5 = Trend.LEAVING ∧
    (run exampleCfg initialState traceLeaving).ble_status = BLEStatus.SCANNING ∧
    (run exampleCfg initialState traceLeaving).ble_task = true ∧
    (run exampleCfg initialState traceLeaving).system_state = SystemState.IDLE ∧
    (run exampleCfg initialState traceLeaving).history = [] := by
  norm_num [run, step, traceLeaving, trackUpdate, trackDecide, appendHistory, resetToIdle,
    scanSettle, intentOf, exampleCfg, initialState, HISTORY_SIZE, checkTrigger,
    analyze_trajectory, normTimes, sxxOf, sxyOf, lsqSlope]

/-- C3, amended.  While a scan is outstanding (`SCANNING` with a live
task handle), processing any radar observation — including one whose
trend classifies as LEAVING and triggers the GEHEN reset — leaves the
scan running and the status SCANNING: the logic task never cancels it.
The status leaves SCANNING only through the wrapper's own terminating
paths; in particular an externally cancelled wrapper settles the status
to FAILED and clears the handle. -/
theorem leaving_keeps_scan_running (cfg : Config) (s : RadarState) (t : ℚ) (o : Option Obs)
    (h1 : s.ble_status = BLEStatus.SCANNING) (h2 : s.ble_task = true) :
    ((step cfg s (Event.radar t o)).state.ble_status = BLEStatus.SCANNING ∧
     (step cfg s (Event.radar t o)).state.ble_task = true) ∧
    ((step cfg s Event.scanCancelled).state.ble_status = BLEStatus.FAILED ∧
     (step cfg s Event.scanCancelled).state.ble_task = false) := by
  refine ⟨step_radar_keeps_scanning cfg s t o h1 h2, ?_, scanSettle_task s _⟩
  exact scanSettle_status s _ h2

/-- C3 witness: the amended theorem at a concrete tracking state with an
outstanding scan receiving a departing observation. -/
theorem leaving_keeps_scan_running_witness :
    (((step exampleCfg
        ⟨.TRACKING, .SCANNING, .NEUTRAL, true, 0, [(0, -300, 800)], false⟩
        (Event.radar (1/20) (some ⟨-300, 1000⟩))).state.ble_status = BLEStatus.SCANNING ∧
      (step exampleCfg
        ⟨.TRACKING, .SCANNING, .NEUTRAL, true, 0, [(0, -300, 800)], false⟩
        (Event.radar (1/20) (some ⟨-300, 1000⟩))).state.ble_task = true) ∧
     ((step exampleCfg
        ⟨.TRACKING, .SCANNING, .NEUTRAL, true, 0, [(0, -300, 800)], false⟩
        Event.scanCancelled).state.ble_status = BLEStatus.FAILED ∧
      (step exampleCfg
        ⟨.TRACKING, .SCANNING, .NEUTRAL, true, 0, [(0, -300, 800)], false⟩
        Event.scanCancelled).state.ble_task = false)) :=
  leaving_keeps_scan_running exampleCfg
    ⟨.TRACKING, .SCANNING, .NEUTRAL, true, 0, [(0, -300, 800)], false⟩
    (1/20) (some ⟨-300, 1000⟩) rfl rfl

/-- C7, counterexample.  After the successful trigger of `traceA` the
engine's cached identity result is **still SUCCESS** and the system state
is IDLE — refuting the claim that the transition discards the identity
cache (and lands in COOLDOWN) so that a fresh approach must re-pass the
identity check. -/
theorem trigger_leaves_success_cached :
    runOpens exampleCfg initialState traceA = 1 ∧
    (run exampleCfg initialState traceA).ble_status = BLEStatus.SUCCESS ∧
    (run exampleCfg initialState traceA).ble_task = false ∧
    (run exampleCfg initialState traceA).system_state = SystemState.IDLE := by
  norm_num [run, runOpens, step, traceA, trackUpdate, trackDecide, appendHistory,
    resetToIdle, scanSettle, intentOf, exampleCfg, initialState, HISTORY_SIZE, checkTrigger,
    analyze_trajectory, normTimes, sxxOf, sxyOf, lsqSlope]

/-- C7 witness: the amended theorem at a concrete triggering cycle (full
COMING window, cached SUCCESS, x flipping −50 → +50). -/
theorem step_opened_effect_witness :
    (step exampleCfg
      ⟨.TRACKING, .SUCCESS, .NEUTRAL, false, 0,
        [(0, -300, 2000), (1/20, -250, 1800), (2/20, -200, 1600),
         (3/20, -150, 1400), (4/20, -100, 1200), (5/20, -50, 1000)], false⟩
      (Event.radar (6/20) (some ⟨50, 800⟩))).doorOpened = true ∧
    (step exampleCfg
      ⟨.TRACKING, .SUCCESS, .NEUTRAL, false, 0,
        [(0, -300, 2000), (1/20, -250, 1800), (2/20, -200, 1600),
         (3/20, -150, 1400), (4/20, -100, 1200), (5/20, -50, 1000)], false⟩
      (Event.radar (6/20) (some ⟨50, 800⟩))).state.ble_status = BLEStatus.SUCCESS ∧
    (step exampleCfg
      ⟨.TRACKING, .SUCCESS, .NEUTRAL, false, 0,
        [(0, -300, 2000), (1/20, -250, 1800), (2/20, -200, 1600),
         (3/20, -150, 1400), (4/20, -100, 1200), (5/20, -50, 1000)], false⟩
      (Event.radar (6/20) (some ⟨50, 800⟩))).state.system_state = SystemState.IDLE := by
  have hop : (step exampleCfg
      ⟨.TRACKING, .SUCCESS, .NEUTRAL, false, 0,
        [(0, -300, 2000), (1/20, -250, 1800), (2/20, -200, 1600),
         (3/20, -150, 1400), (4/20, -100, 1200), (5/20, -50, 1000)], false⟩
      (Event.radar (6/20) (some ⟨50, 800⟩))).doorOpened = true := by
    norm_num [step, trackUpdate, trackDecide, appendHistory, resetToIdle, intentOf,
      exampleCfg, HISTORY_SIZE, checkTrigger, analyze_trajectory, normTimes, sxxOf,
      sxyOf, lsqSlope]
  have he := step_opened_effect exampleCfg
    ⟨.TRACKING, .SUCCESS, .NEUTRAL, false, 0,
      [(0, -300, 2000), (1/20, -250, 1800), (2/20, -200, 1600),
       (3/20, -150, 1400), (4/20, -100, 1200), (5/20, -50, 1000)], false⟩
    (6/20) ⟨50, 800⟩ hop
  exact ⟨hop, he.2.2.2.2.1, he.1⟩

/-- C8, confirmed.  A scan task is created only when `ble_status` is
UNKNOWN or FAILED and no task handle is stored; creating it sets the
status to SCANNING and stores the handle (so at most one scan is ever in
flight), and every terminating path of the scan wrapper — success,
failure, cancellation or exception — clears the task handle. -/
theorem single_scan_invariant (cfg : Config) (s : RadarState) (e : Event) :
    ((step cfg s e).startedScan = true →
      s.ble_task = false ∧
      (s.ble_status = BLEStatus.UNKNOWN ∨ s.ble_status = BLEStatus.FAILED) ∧
      (step cfg s e).state.ble_status = BLEStatus.SCANNING ∧
      (step cfg s e).state.ble_task = true) ∧
    ((step cfg s Event.scanOk).state.ble_task = false ∧
     (step cfg s Event.scanFail).state.ble_task = false ∧
     (step cfg s Event.scanCancelled).state.ble_task = false ∧
     (step cfg s Event.scanError).state.ble_task = false) :=
  ⟨step_started_scan cfg s e, scanSettle_task s _, scanSettle_task s _,
    scanSettle_task s _, scanSettle_task s _⟩

/-- C8 witness: the first tracked observation from the initial state
starts a scan (status UNKNOWN, no task), which sets SCANNING and stores
the handle. -/
theorem single_scan_invariant_witness :
    (step exampleCfg initialState (Event.radar 0 (some ⟨-300, 2000⟩))).startedScan = true ∧
    (initialState.ble_task = false ∧
      (initialState.ble_status = BLEStatus.UNKNOWN ∨
        initialState.ble_status = BLEStatus.FAILED) ∧
      (step exampleCfg initialState
        (Event.radar 0 (some ⟨-300, 2000⟩))).state.ble_status = BLEStatus.SCANNING ∧
      (step exampleCfg initialState
        (Event.radar 0 (some ⟨-300, 2000⟩))).state.ble_task = true) := by
  have hs : (step exampleCfg initialState
      (Event.radar 0 (some ⟨-300, 2000⟩))).startedScan = true := by
    norm_num [step, trackUpdate, trackDecide, appendHistory, intentOf, exampleCfg,
      initialState, HISTORY_SIZE]
  exact ⟨hs, (single_scan_invariant exampleCfg initialState
    (Event.radar 0 (some ⟨-300, 2000⟩))).1 hs⟩

/-- Expansion of the residual sum of squares into raw moments. -/
theorem rss_expand (l : List (ℚ × ℚ)) (m b : ℚ) :
    (l.map fun p => (p.2 - (m * p.1 + b)) ^ 2).sum =
      (l.map fun p => p.2 ^ 2).sum + m ^ 2 * (l.map fun p => p.1 ^ 2).sum +
        l.length * b ^ 2 - 2 * m * (l.map fun p => p.1 * p.2).sum -
        2 * b * (l.map fun p => p.2).sum + 2 * m * b * (l.map fun p => p.1).sum := by
  induction l with
  | nil => simp
  | cons p tl ih =>
    simp only [List.map_cons, List.sum_cons, List.length_cons, ih]
    push_cast
    ring

/-- Expansion of a centered square sum into raw moments. -/
theorem centered_sq_expand (l : List ℚ) (c : ℚ) :
    (l.map fun t => (t - c) ^ 2).sum =
      (l.map fun t => t ^ 2).sum - 2 * c * l.sum + l.length * c ^ 2 := by
  induction l with
  | nil => simp
  | cons t tl ih =>
    simp only [List.map_cons, List.sum_cons, List.length_cons, ih]
    push_cast
    ring

/-- Expansion of a centered product sum into raw moments. -/
theorem centered_mul_expand (l : List (ℚ × ℚ)) (c d : ℚ) :
    (l.map fun p => (p.1 - c) * (p.2 - d)).sum =
      (l.map fun p => p.1 * p.2).sum - d * (l.map fun p => p.1).sum -
        c * (l.map fun p => p.2).sum + l.length * (c * d) := by
  induction l with
  | nil => simp
  | cons p tl ih =>
    simp only [List.map_cons, List.sum_cons, List.length_cons, ih]
    push_cast
    ring

/-- A sum of squared deviations is non-negative. -/
theorem sum_sq_sub_nonneg (l : List ℚ) (c : ℚ) :
    0 ≤ (l.map fun t => (t - c) ^ 2).sum := by
  induction l with
  | nil => simp
  | cons t tl ih =>
    simp only [List.map_cons, List.sum_cons]
    positivity
/-- Squared first components of a zip sum to the first list's squares. -/
theorem zip_fst_sq_sum (ts ys : List ℚ) (h : ts.length ≤ ys.length) :
    ((ts.zip ys).map fun p => p.1 ^ 2).sum = (ts.map fun t => t ^ 2).sum := by
  induction ts generalizing ys with
  | nil => simp
  | cons t tl ih =>
    cases ys with
    | nil => simp at h
    | cons y yl =>
      simp only [List.zip_cons_cons, List.map_cons, List.sum_cons]
      rw [ih yl (by simpa using h)]

/-- First components of a zip sum to the first list's sum. -/
theorem zip_fst_sum (ts ys : List ℚ) (h : ts.length ≤ ys.length) :
    ((ts.zip ys).map fun p => p.1).sum = ts.sum := by
  induction ts generalizing ys with
  | nil => simp
  | cons t tl ih =>
    cases ys with
    | nil => simp at h
    | cons y yl =>
      simp only [List.zip_cons_cons, List.map_cons, List.sum_cons]
      rw [ih yl (by simpa using h)]

/-- Second components of a zip sum to the second list's sum. -/
theorem zip_snd_sum (ts ys : List ℚ) (h : ys.length ≤ ts.length) :
    ((ts.zip ys).map fun p => p.2).sum = ys.sum := by
  induction ts generalizing ys with
  | nil =>
    cases ys with
    | nil => simp
    | cons y yl => simp at h
  | cons t tl ih =>
    cases ys with
    | nil => simp
    | cons y yl =>
      simp only [List.zip_cons_cons, List.map_cons, List.sum_cons]
      rw [ih yl (by simpa using h)]

/-- Source `lsqSlope` (the closed form `Sxy / Sxx` that `np.polyfit(·,·,1)[0]`
computes) together with the matching intercept minimizes the residual
sum of squares over all lines — it is genuinely the least-squares fit. -/
theorem lsq_optimal (ts ys : List ℚ) (hlen : ts.length = ys.length) (hne : ts ≠ [])
    (hsxx : sxxOf ts ≠ 0) (m b : ℚ) :
    rss ts ys (lsqSlope ts ys)
        (ys.sum / ys.length - lsqSlope ts ys * (ts.sum / ts.length)) ≤
      rss ts ys m b := by
  have hn0 : ts.length ≠ 0 := fun h => hne (List.length_eq_zero.mp h)
  have hn : (0 : ℚ) < (ts.length : ℚ) := by
    exact_mod_cast Nat.pos_of_ne_zero hn0
  have hA2 : ((ts.zip ys).map fun p => p.1 ^ 2).sum = (ts.map fun t => t ^ 2).sum :=
    zip_fst_sq_sum ts ys (le_of_eq hlen)
  have hBf : ((ts.zip ys).map fun p => p.1).sum = ts.sum :=
    zip_fst_sum ts ys (le_of_eq hlen)
  have hCf : ((ts.zip ys).map fun p => p.2).sum = ys.sum :=
    zip_snd_sum ts ys (le_of_eq hlen.symm)
  have hlz : ((ts.zip ys).length : ℚ) = (ts.length : ℚ) := by
    rw [List.length_zip, hlen, Nat.min_self]
  have hyn : ((ys.length : ℚ)) = ((ts.length : ℚ)) := by
    rw [hlen]
  set n : ℚ := (ts.length : ℚ) with hn'
  set A := (ts.map fun t => t ^ 2).sum with hA
  set B := ts.sum with hB
  set C := ys.sum with hC
  set D := ((ts.zip ys).map fun p => p.1 * p.2).sum with hD
  set E := ((ts.zip ys).map fun p => p.2 ^ 2).sum with hE
  have hrss : ∀ m' b', rss ts ys m' b' =
      E + m' ^ 2 * A + n * b' ^ 2 - 2 * m' * D - 2 * b' * C + 2 * m' * b' * B := by
    intro m' b'
    unfold rss
    rw [rss_expand, hBf, hCf, hlz, hA2]
  have hsxx_eq : sxxOf ts = A - B ^ 2 / n := by
    unfold sxxOf
    rw [centered_sq_expand, ← hA, ← hB, ← hn']
    field_simp
    ring
  have hsxy_eq : sxyOf ts ys = D - B * C / n := by
    unfold sxyOf
    rw [centered_mul_expand, hBf, hCf, hlz, ← hD, ← hB, ← hC, hyn, ← hn']
    field_simp
    ring
  have hsxx_nn : 0 ≤ sxxOf ts := sum_sq_sub_nonneg ts _
  have hS0 : A - B ^ 2 / n ≠ 0 := by rw [← hsxx_eq]; exact hsxx
  have hSnn : 0 ≤ A - B ^ 2 / n := by rw [← hsxx_eq]; exact hsxx_nn
  have hslope : lsqSlope ts ys = (D - B * C / n) / (A - B ^ 2 / n) := by
    unfold lsqSlope
    rw [hsxx_eq, hsxy_eq]
  have hnne : n ≠ 0 := ne_of_gt hn
  have hfrac : A - B ^ 2 / n = (n * A - B ^ 2) / n := by
    field_simp
    ring
  have hP : n * A - B ^ 2 ≠ 0 := by
    rw [hfrac] at hS0
    intro h0
    rw [h0] at hS0
    simp at hS0
  have hslope2 : lsqSlope ts ys = (n * D - B * C) / (n * A - B ^ 2) := by
    rw [hslope]
    rw [div_eq_div_iff hS0 hP]
    field_simp
    ring
  have key : rss ts ys m b -
      rss ts ys (lsqSlope ts ys)
        (ys.sum / ys.length - lsqSlope ts ys * (ts.sum / ts.length)) =
      (A - B ^ 2 / n) * (m - lsqSlope ts ys) ^ 2 +
        n * (C / n - m * (B / n) - b) ^ 2 := by
    rw [hrss, hrss, hslope2, hyn, ← hB, ← hC, ← hn', hfrac]
    field_simp
    ring
  have h1 : 0 ≤ (A - B ^ 2 / n) * (m - lsqSlope ts ys) ^ 2 :=
    mul_nonneg hSnn (sq_nonneg _)
  have h2 : 0 ≤ n * (C / n - m * (B / n) - b) ^ 2 :=
    mul_nonneg (le_of_lt hn) (sq_nonneg _)
  linarith [key, h1, h2]

/-- Normalizing timestamps preserves the sample count. -/
theorem normTimes_length (history : List HistEntry) :
    (normTimes history).length = history.length := by
  cases history with
  | nil => rfl
  | cons e rest => simp [normTimes]

/-- Source `_analyze_trajectory` on a non-empty non-degenerate window, reduced
to its decision tree. -/
theorem analyze_reduced (e0 : HistEntry) (rest : List HistEntry) (sign : XSign) (thr : ℚ)
    (hsxx : sxxOf (normTimes (e0 :: rest)) ≠ 0) :
    analyze_trajectory (e0 :: rest) sign thr =
      (if lsqSlope (normTimes (e0 :: rest)) ((e0 :: rest).map fun e => ((e.2.2 : ℚ))) <
          -(thr * 10) then
        if (sign = XSign.positive ∧
              0 < ((e0 :: rest).map fun e => ((e.2.1 : ℚ))).sum / (e0 :: rest).length) ∨
            (sign = XSign.negative ∧
              ((e0 :: rest).map fun e => ((e.2.1 : ℚ))).sum / (e0 :: rest).length < 0) then
          Trend.COMING
        else Trend.LEAVING
      else if thr * 10 < lsqSlope (normTimes (e0 :: rest))
          ((e0 :: rest).map fun e => ((e.2.2 : ℚ))) then Trend.LEAVING
      else Trend.NEUTRAL) := by
  simp only [analyze_trajectory]
  rw [if_neg hsxx]

/-- C4, confirmed.  On any window of at least `HISTORY_SIZE` samples with
a non-degenerate regression (and a non-negative noise threshold, as
configured), `_analyze_trajectory` returns COMING exactly when the
least-squares slope of y over normalized time is strictly below minus
the threshold converted from cm/s to mm/s (×10) and the mean x has the
configured expected sign; LEAVING exactly when the slope is below the
negative threshold with the wrong mean-x sign, or strictly above the
positive threshold; NEUTRAL exactly when the slope lies within the noise
band; and the slope used is the true least-squares minimizer of the
residual sum of squares. -/
theorem analyze_trajectory_classification :
    ∀ (history : List HistEntry) (sign : XSign) (thr : ℚ),
    HISTORY_SIZE ≤ history.length → 0 ≤ thr →
    sxxOf (normTimes history) ≠ 0 →
    ((analyze_trajectory history sign thr = Trend.COMING ↔
        lsqSlope (normTimes history) (history.map fun e => ((e.2.2 : ℚ))) < -(thr * 10) ∧
          ((sign = XSign.positive ∧
              0 < (history.map fun e => ((e.2.1 : ℚ))).sum / history.length) ∨
            (sign = XSign.negative ∧
              (history.map fun e => ((e.2.1 : ℚ))).sum / history.length < 0))) ∧
     (analyze_trajectory history sign thr = Trend.LEAVING ↔
        (lsqSlope (normTimes history) (history.map fun e => ((e.2.2 : ℚ))) < -(thr * 10) ∧
          ¬((sign = XSign.positive ∧
              0 < (history.map fun e => ((e.2.1 : ℚ))).sum / history.length) ∨
            (sign = XSign.negative ∧
              (history.map fun e => ((e.2.1 : ℚ))).sum / history.length < 0))) ∨
        thr * 10 < lsqSlope (normTimes history) (history.map fun e => ((e.2.2 : ℚ)))) ∧
     (analyze_trajectory history sign thr = Trend.NEUTRAL ↔
        -(thr * 10) ≤ lsqSlope (normTimes history) (history.map fun e => ((e.2.2 : ℚ))) ∧
          lsqSlope (normTimes history) (history.map fun e => ((e.2.2 : ℚ))) ≤ thr * 10) ∧
     (∀ m b : ℚ,
        rss (normTimes history) (history.map fun e => ((e.2.2 : ℚ)))
            (lsqSlope (normTimes history) (history.map fun e => ((e.2.2 : ℚ))))
            ((history.map fun e => ((e.2.2 : ℚ))).sum /
                (history.map fun e => ((e.2.2 : ℚ))).length -
              lsqSlope (normTimes history) (history.map fun e => ((e.2.2 : ℚ))) *
                ((normTimes history).sum / (normTimes history).length)) ≤
          rss (normTimes history) (history.map fun e => ((e.2.2 : ℚ))) m b)) := by
  intro history sign thr hlen hthr hsxx
  have hne : normTimes history ≠ [] := by
    intro h0
    have hl := normTimes_length history
    rw [h0] at hl
    simp only [List.length_nil] at hl
    rw [HISTORY_SIZE] at hlen
    omega
  have hlens : (normTimes history).length = (history.map fun e => ((e.2.2 : ℚ))).length := by
    rw [normTimes_length, List.length_map]
  have hopt := lsq_optimal (normTimes history)
    (history.map fun e => ((e.2.2 : ℚ))) hlens hne hsxx
  refine ⟨?_, ?_, ?_, hopt⟩ <;>
  · cases history with
    | nil => exact absurd hlen (by simp [HISTORY_SIZE])
    | cons e0 rest =>
      rw [analyze_reduced e0 rest sign thr hsxx]
      by_cases h1 : lsqSlope (normTimes (e0 :: rest))
          ((e0 :: rest).map fun e => ((e.2.2 : ℚ))) < -(thr * 10)
      · by_cases h2 : (sign = XSign.positive ∧
              0 < ((e0 :: rest).map fun e => ((e.2.1 : ℚ))).sum / (e0 :: rest).length) ∨
            (sign = XSign.negative ∧
              ((e0 :: rest).map fun e => ((e.2.1 : ℚ))).sum / (e0 :: rest).length < 0)
        · rw [if_pos h1, if_pos h2]
          first
          | exact iff_of_true rfl ⟨h1, h2⟩
          | · refine iff_of_false (by decide) ?_
              rintro (⟨-, hns⟩ | hgt)
              · exact hns h2
              · linarith
          | · refine iff_of_false (by decide) ?_
              rintro ⟨hge, -⟩
              linarith
        · rw [if_pos h1, if_neg h2]
          first
          | · refine iff_of_false (by decide) ?_
              rintro ⟨-, hs⟩
              exact h2 hs
          | exact iff_of_true rfl (Or.inl ⟨h1, h2⟩)
          | · refine iff_of_false (by decide) ?_
              rintro ⟨hge, -⟩
              linarith
      · rw [if_neg h1]
        by_cases h3 : thr * 10 < lsqSlope (normTimes (e0 :: rest))
            ((e0 :: rest).map fun e => ((e.2.2 : ℚ)))
        · rw [if_pos h3]
          first
          | · refine iff_of_false (by decide) ?_
              rintro ⟨hlt, -⟩
              exact h1 hlt
          | exact iff_of_true rfl (Or.inr h3)
          | · refine iff_of_false (by decide) ?_
              rintro ⟨-, hle⟩
              linarith
        · rw [if_neg h3]
          push_neg at h1 h3
          first
          | · refine iff_of_false (by decide) ?_
              rintro ⟨hlt, -⟩
              linarith
          | · refine iff_of_false (by decide) ?_
              rintro (⟨hlt, -⟩ | hgt) <;> linarith
          | exact iff_of_true rfl ⟨h1, h3⟩

/-- C4 witness: the spec §8 example window (approaching from the left,
threshold 5 cm/s) classifies as COMING via the classification theorem. -/
theorem analyze_trajectory_classification_witness :
    HISTORY_SIZE ≤ exampleWindow.length ∧
    (0 : ℚ) ≤ 5 ∧
    sxxOf (normTimes exampleWindow) ≠ 0 ∧
    analyze_trajectory exampleWindow XSign.negative 5 = Trend.COMING := by
  have hl : HISTORY_SIZE ≤ exampleWindow.length := by
    norm_num [HISTORY_SIZE, exampleWindow]
  have ht : (0 : ℚ) ≤ 5 := by norm_num
  have hs : sxxOf (normTimes exampleWindow) ≠ 0 := by
    norm_num [sxxOf, normTimes, exampleWindow]
  have h := analyze_trajectory_classification exampleWindow XSign.negative 5 hl ht hs
  refine ⟨hl, ht, hs, ?_⟩
  refine h.1.mpr ⟨?_, Or.inr ⟨rfl, ?_⟩⟩
  · norm_num [lsqSlope, sxyOf, sxxOf, normTimes, exampleWindow]
  · norm_num [exampleWindow]

end Tueroeffner
